import Mathlib

/-!
Verification of the seesaw Rust control-plane core against its specification.

The definitions below are shallow embeddings of the Rust sources:
`crates/vrrp` (packet codec, checksum, state machine), `crates/healthcheck`
(monitor hysteresis), `crates/healthcheck-server` (notifier batching, manager
checker construction) and `crates/ipvs` (netlink attribute codec, driver
operations).  Machine integers are represented by `Nat` with explicit masks
where the Rust code truncates; byte strings are `List Nat` with every element
a byte value; native byte order is little-endian (the x86-64/aarch64 Linux
targets of this repository).  Fallible operations return `Except`/`Option`.
-/

namespace Seesaw

/-! ## Byte-order helpers -/

/-- Big-endian bytes of a `u16` (`u16::to_be_bytes`). -/
def be16 (n : Nat) : List Nat := [n / 256 % 256, n % 256]

/-- Little-endian bytes of a `u16` (`u16::to_ne_bytes` on a little-endian host). -/
def le16 (n : Nat) : List Nat := [n % 256, n / 256 % 256]

/-- Big-endian bytes of a `u32` (`u32::to_be_bytes`). -/
def be32 (n : Nat) : List Nat :=
  [n / 16777216 % 256, n / 65536 % 256, n / 256 % 256, n % 256]

/-- Little-endian bytes of a `u32` (`u32::to_ne_bytes` on a little-endian host). -/
def le32 (n : Nat) : List Nat :=
  [n % 256, n / 256 % 256, n / 65536 % 256, n / 16777216 % 256]

/-- `u16::from_be_bytes` over a 2-byte payload. -/
def readBe16 (l : List Nat) : Nat := l.getD 0 0 * 256 + l.getD 1 0

/-- `NativeEndian::read_u16` (little-endian host) over a 2-byte payload. -/
def readLe16 (l : List Nat) : Nat := l.getD 0 0 + l.getD 1 0 * 256

/-- `u32::from_be_bytes` over a 4-byte payload. -/
def readBe32 (l : List Nat) : Nat :=
  l.getD 0 0 * 16777216 + l.getD 1 0 * 65536 + l.getD 2 0 * 256 + l.getD 3 0

/-- `u16::to_be` on a little-endian host: swap the two bytes of a `u16`. -/
def u16_to_be (v : Nat) : Nat := v % 256 * 256 + v / 256 % 256

/-- `u32::to_be` on a little-endian host: reverse the four bytes of a `u32`. -/
def u32_to_be (v : Nat) : Nat :=
  v % 256 * 16777216 + v / 256 % 256 * 65536 + v / 65536 % 256 * 256 + v / 16777216 % 256

/-- `u32::from(Ipv4Addr)`: the address octets as a big-endian numeric value. -/
def u32_from_v4 (a b c d : Nat) : Nat := a * 16777216 + b * 65536 + c * 256 + d

/-! ## `std::net::IpAddr` -/

/-- `std::net::IpAddr`: a v4 address is its four octets, a v6 address its
sixteen octets. -/
inductive IpAddr where
  | v4 (a b c d : Nat)
  | v6 (octets : List Nat)
deriving DecidableEq, Repr

/-- `IpAddr::is_ipv6`. -/
def IpAddr.is_ipv6 : IpAddr → Bool
  | .v4 _ _ _ _ => false
  | .v6 _ => true

/-- `Ipv4Addr::octets` / `Ipv6Addr::octets`. -/
def IpAddr.octets : IpAddr → List Nat
  | .v4 a b c d => [a, b, c, d]
  | .v6 o => o

/-! ## VRRP constants (`crates/vrrp/src/types.rs`) -/

def VRRP_VERSION : Nat := 3

def VRRP_TYPE_ADVERTISEMENT : Nat := 1

def VRRP_PROTOCOL : Nat := 112

/-- `VRRP_MULTICAST_ADDR_V4` ("224.0.0.18") parsed. -/
def vrrpMulticastV4 : IpAddr := .v4 224 0 0 18

/-- `VRRP_MULTICAST_ADDR_V6` ("ff02::12") parsed. -/
def vrrpMulticastV6 : IpAddr := .v6 [255, 2, 0, 0, 0, 0, 0, 0, 0, 0, 0, 0, 0, 0, 0, 18]

/-! ## VRRP packet (`crates/vrrp/src/packet.rs`) -/

/-- `VRRPPacket`: fixed 8-byte header plus the virtual IP addresses. -/
structure VRRPPacket where
  version_type : Nat
  vrid : Nat
  priority : Nat
  count_ip : Nat
  max_advert_int : Nat
  checksum : Nat
  ip_addresses : List IpAddr
deriving DecidableEq, Repr

/-- `VRRPPacket::new`. -/
def VRRPPacket.new (vrid priority advert_interval : Nat) (ips : List IpAddr) : VRRPPacket :=
  { version_type := VRRP_VERSION * 16 + VRRP_TYPE_ADVERTISEMENT
    vrid := vrid
    priority := priority
    count_ip := ips.length % 256
    max_advert_int := advert_interval
    checksum := 0
    ip_addresses := ips }

/-- `VRRPPacket::to_bytes`: header then the address octets in order. -/
def VRRPPacket.to_bytes (p : VRRPPacket) : List Nat :=
  [p.version_type, p.vrid, p.priority, p.count_ip]
    ++ be16 p.max_advert_int ++ be16 p.checksum
    ++ (p.ip_addresses.map IpAddr.octets).flatten

/-- The IPv4-address loop of `VRRPPacket::parse`: read `count` four-byte
addresses from the remaining bytes. -/
def parseV4Addrs : Nat → List Nat → Except String (List IpAddr)
  | 0, _ => .ok []
  | n + 1, a :: b :: c :: d :: rest =>
      (parseV4Addrs n rest).map (fun ips => IpAddr.v4 a b c d :: ips)
  | _ + 1, _ => .error "Truncated IPv4 address"

/-- The IPv6-address loop of `VRRPPacket::parse`: read `count` sixteen-byte
addresses from the remaining bytes. -/
def parseV6Addrs : Nat → List Nat → Except String (List IpAddr)
  | 0, _ => .ok []
  | n + 1, bytes =>
      if 16 ≤ bytes.length then
        (parseV6Addrs n (bytes.drop 16)).map (fun ips => IpAddr.v6 (bytes.take 16) :: ips)
      else .error "Truncated IPv6 address"

/-- `VRRPPacket::parse`. -/
def VRRPPacket.parse (data : List Nat) : Except String VRRPPacket :=
  if data.length < 8 then .error "Packet too short"
  else
    let version_type := data.getD 0 0
    let version := version_type / 16
    let pkt_type := version_type % 16
    if version ≠ VRRP_VERSION then .error "Invalid VRRP version"
    else if pkt_type ≠ VRRP_TYPE_ADVERTISEMENT then .error "Invalid packet type"
    else
      let vrid := data.getD 1 0
      let priority := data.getD 2 0
      let count_ip := data.getD 3 0
      let max_advert_int := data.getD 4 0 % 16 * 256 + data.getD 5 0
      let checksum := data.getD 6 0 * 256 + data.getD 7 0
      let expected_len_v4 := 8 + count_ip * 4
      let expected_len_v6 := 8 + count_ip * 16
      if data.length = expected_len_v4 then
        (parseV4Addrs count_ip (data.drop 8)).map fun ips =>
          { version_type := version_type, vrid := vrid, priority := priority
            count_ip := count_ip, max_advert_int := max_advert_int
            checksum := checksum, ip_addresses := ips }
      else if data.length = expected_len_v6 then
        (parseV6Addrs count_ip (data.drop 8)).map fun ips =>
          { version_type := version_type, vrid := vrid, priority := priority
            count_ip := count_ip, max_advert_int := max_advert_int
            checksum := checksum, ip_addresses := ips }
      else .error "Invalid packet length"

/-- Well-formedness of a VRRP packet, as assumed by the round-trip property:
version 3 / type 1, byte-sized header fields, `count_ip` equal to the number
of virtual IPs, a 12-bit advertisement interval, and all addresses of one
family (v6 addresses carrying their sixteen octets). -/
def VRRPPacket.wellFormed (p : VRRPPacket) : Prop :=
  p.version_type = VRRP_VERSION * 16 + VRRP_TYPE_ADVERTISEMENT ∧
  p.count_ip = p.ip_addresses.length ∧
  p.ip_addresses.length < 256 ∧
  p.max_advert_int < 4096 ∧
  p.checksum < 65536 ∧
  ((∀ a ∈ p.ip_addresses, a.is_ipv6 = false) ∨
   (∀ a ∈ p.ip_addresses, a.is_ipv6 = true ∧ a.octets.length = 16))

instance (p : VRRPPacket) : Decidable p.wellFormed := by
  unfold VRRPPacket.wellFormed; infer_instance

/-! ## VRRP checksum (`VRRPPacket::calculate_checksum`) -/

/-- RFC 1071 word accumulation: sum the bytes as big-endian 16-bit words,
padding a trailing odd byte with zero on the right. -/
def wordSum : List Nat → Nat
  | [] => 0
  | [a] => a * 256
  | a :: b :: rest => a * 256 + b + wordSum rest

/-- The final folding loop of `calculate_checksum`:
`while sum >> 16 != 0 { sum = (sum & 0xFFFF) + (sum >> 16) }`. -/
def foldChecksum (sum : Nat) : Nat :=
  if sum < 65536 then sum
  else foldChecksum (sum % 65536 + sum / 65536)
decreasing_by
  have h2 : 1 ≤ sum / 65536 := (Nat.one_le_div_iff (by omega)).mpr (by omega)
  omega

/-- `VRRPPacket::calculate_checksum`: pseudo-header plus packet words (the
checksum field, bytes 6 and 7, is skipped), folded and complemented.
Mismatched address families return 0 immediately. -/
def VRRPPacket.calculate_checksum (p : VRRPPacket) (src dst : IpAddr) : Nat :=
  match src, dst with
  | .v4 a b c d, .v4 e f g h =>
      let packet_bytes := p.to_bytes
      let pseudo := (a * 256 + b) + (c * 256 + d) + (e * 256 + f) + (g * 256 + h)
        + VRRP_PROTOCOL + packet_bytes.length
      let body := wordSum (packet_bytes.take 6 ++ packet_bytes.drop 8)
      65535 - foldChecksum (pseudo + body)
  | .v6 s, .v6 t =>
      let packet_bytes := p.to_bytes
      let pseudo := wordSum s + wordSum t + packet_bytes.length + VRRP_PROTOCOL
      let body := wordSum (packet_bytes.take 6 ++ packet_bytes.drop 8)
      65535 - foldChecksum (pseudo + body)
  | _, _ => 0

/-- `VRRPPacket::set_checksum`. -/
def VRRPPacket.set_checksum (p : VRRPPacket) (src dst : IpAddr) : VRRPPacket :=
  { p with checksum := p.calculate_checksum src dst }

/-- `VRRPPacket::verify_checksum`. -/
def VRRPPacket.verify_checksum (p : VRRPPacket) (src dst : IpAddr) : Bool :=
  p.calculate_checksum src dst = p.checksum

/-! ## VRRP configuration, statistics and state (`crates/vrrp/src/types.rs`) -/

/-- `VRRPConfig`. -/
structure VRRPConfig where
  vrid : Nat
  priority : Nat
  advert_interval : Nat
  interface : String
  virtual_ips : List IpAddr
  preempt : Bool
  accept_mode : Bool
deriving DecidableEq, Repr

/-- `VRRPConfig::master_down_interval`, in milliseconds:
`(3 * advert_ms) + ((256 - priority) * advert_ms) / 256`. -/
def VRRPConfig.master_down_interval_ms (c : VRRPConfig) : Nat :=
  let advert_ms := c.advert_interval * 10
  let skew_ms := (256 - c.priority) * advert_ms / 256
  3 * advert_ms + skew_ms

/-- `VRRPStats`. -/
structure VRRPStats where
  master_transitions : Nat
  backup_transitions : Nat
  adverts_sent : Nat
  adverts_received : Nat
  invalid_adverts : Nat
  priority_zero_received : Nat
  checksum_errors : Nat
deriving DecidableEq, Repr

/-- `VRRPStats::default()`. -/
def VRRPStats.default : VRRPStats := ⟨0, 0, 0, 0, 0, 0, 0⟩

/-- `VRRPState`. -/
inductive VRRPState where
  | Init
  | Backup
  | Master
deriving DecidableEq, Repr

/-! ## VRRP Backup-state handlers (`crates/vrrp/src/state_machine.rs`) -/

/-- `VRRPNode::handle_advertisement_backup`: given the current instant `now`
and the `deadline` the caller passes by mutable reference, returns the updated
statistics and the deadline value left in that reference.  Times are in
milliseconds. -/
def VRRPNode.handle_advertisement_backup (cfg : VRRPConfig) (stats : VRRPStats)
    (now deadline : Nat) (packet : VRRPPacket) (src : IpAddr) : VRRPStats × Nat :=
  if packet.vrid ≠ cfg.vrid then (stats, deadline)
  else
    let dst := if src.is_ipv6 then vrrpMulticastV6 else vrrpMulticastV4
    if ¬ packet.verify_checksum src dst then
      ({ stats with checksum_errors := stats.checksum_errors + 1 }, deadline)
    else
      let stats := { stats with adverts_received := stats.adverts_received + 1 }
      if packet.priority = 0 then
        (stats, now)
      else if packet.priority ≥ cfg.priority ∨ cfg.preempt = true then
        (stats, now + cfg.master_down_interval_ms)
      else
        (stats, deadline)

/-- The advertisement branch of one `run_backup` loop iteration: the code
calls `handle_advertisement_backup(&packet, src_ip, &mut deadline.clone())`,
so the deadline written by the handler lands in a temporary clone and the
loop keeps its own `deadline` unchanged. -/
def VRRPNode.run_backup_recv_step (cfg : VRRPConfig) (stats : VRRPStats)
    (now deadline : Nat) (packet : VRRPPacket) (src : IpAddr) : VRRPStats × Nat :=
  let r := VRRPNode.handle_advertisement_backup cfg stats now deadline packet src
  (r.1, deadline)

/-- `VRRPSocket::recv`, reduced to its parsing: a datagram shorter than 8
bytes is rejected, otherwise `VRRPPacket::parse` decides. -/
def VRRPSocket.recv_parse (raw : List Nat) : Except String VRRPPacket :=
  if raw.length < 8 then .error "Packet too short for VRRP"
  else VRRPPacket.parse raw

/-- One receive event of the `run_backup` loop on a raw datagram: a receive
error (including a parse failure surfaced as `ErrorKind::InvalidData`) is
only logged — no statistic changes and the state stays Backup; a parsed
packet goes through `handle_advertisement_backup` (with the cloned-deadline
call). -/
def VRRPNode.run_backup_recv_event (cfg : VRRPConfig) (st : VRRPState)
    (stats : VRRPStats) (now deadline : Nat) (raw : List Nat) (src : IpAddr) :
    VRRPState × VRRPStats × Nat :=
  match VRRPSocket.recv_parse raw with
  | .error _ => (st, stats, deadline)
  | .ok packet =>
      let r := VRRPNode.run_backup_recv_step cfg stats now deadline packet src
      (st, r.1, r.2)

/-! ## Health-check types (`crates/healthcheck/src/types.rs`) -/

/-- `HealthStatus`. -/
inductive HealthStatus where
  | Healthy
  | Unhealthy
  | Timeout
  | Error
deriving DecidableEq, Repr

/-- `HealthCheckResult`.  The `avg`-related payloads (`duration`, `message`,
`response_code`) do not influence the state logic; `duration` is kept in
milliseconds. -/
structure HealthCheckResult where
  status : HealthStatus
  duration_ms : Nat
  message : Option String
  response_code : Option Nat
deriving DecidableEq, Repr

/-- `HealthCheckStats`.  The `avg_response_time_ms` field is an `f64`
rolling mean in the source and is not modelled (floating point); no claim
refers to it. -/
structure HealthCheckStats where
  total_checks : Nat
  successful_checks : Nat
  failed_checks : Nat
  timeouts : Nat
  consecutive_successes : Nat
  consecutive_failures : Nat
deriving DecidableEq, Repr

/-- `HealthCheckStats::default()`. -/
def HealthCheckStats.default : HealthCheckStats := ⟨0, 0, 0, 0, 0, 0⟩

/-- `HealthCheckStats::update`. -/
def HealthCheckStats.update (s : HealthCheckStats) (result : HealthCheckResult) :
    HealthCheckStats :=
  let s := { s with total_checks := s.total_checks + 1 }
  match result.status with
  | .Healthy =>
      { s with successful_checks := s.successful_checks + 1
               consecutive_successes := s.consecutive_successes + 1
               consecutive_failures := 0 }
  | .Unhealthy | .Error =>
      { s with failed_checks := s.failed_checks + 1
               consecutive_failures := s.consecutive_failures + 1
               consecutive_successes := 0 }
  | .Timeout =>
      { s with timeouts := s.timeouts + 1
               consecutive_failures := s.consecutive_failures + 1
               consecutive_successes := 0 }

/-- `HealthCheckConfig` (durations in milliseconds; `check_type` does not
influence `process_result` and is elided here). -/
structure HealthCheckConfig where
  target : String
  timeout_ms : Nat
  interval_ms : Nat
  rise : Nat
  fall : Nat
deriving DecidableEq, Repr

/-- `HealthCheckMonitor::process_result`: update the statistics with the
result, then apply rise/fall hysteresis to the `is_up` flag. -/
def HealthCheckMonitor.process_result (config : HealthCheckConfig)
    (stats : HealthCheckStats) (was_up : Bool) (result : HealthCheckResult) :
    HealthCheckStats × Bool :=
  let stats2 := stats.update result
  let is_up :=
    if was_up = false ∧ stats2.consecutive_successes ≥ config.rise then true
    else if was_up = true ∧ stats2.consecutive_failures ≥ config.fall then false
    else was_up
  (stats2, is_up)

/-! ## Monitor lifecycle (`crates/healthcheck/src/monitor.rs`) -/

/-- The task-level state of one `HealthCheckMonitor`: how many probing tasks
have been spawned and are still running, and whether a `Notify` permit is
stored (`notify_one` stores at most one permit when no task is waiting). -/
structure MonitorTasks where
  tasks : Nat
  permit : Bool
deriving DecidableEq, Repr

/-- `HealthCheckMonitor::start`: unconditionally `tokio::spawn` a new probing
task — there is no guard against an already-running task. -/
def HealthCheckMonitor.start (m : MonitorTasks) : MonitorTasks :=
  { m with tasks := m.tasks + 1 }

/-- `HealthCheckMonitor::stop`: `Notify::notify_one`.  If a probing task is
waiting it is woken between ticks and breaks out of its loop; with no task
waiting a single permit is stored (a second `notify_one` does not add
another). -/
def HealthCheckMonitor.stop (m : MonitorTasks) : MonitorTasks :=
  if m.tasks = 0 then { m with permit := true }
  else { m with tasks := m.tasks - 1 }

/-! ## Notifier batching (`crates/healthcheck-server/src/notifier.rs`) -/

/-- `Notification` (`crates/healthcheck-server/src/types.rs`).  The batching
logic moves notifications around without inspecting them, so only the id is
carried here. -/
structure Notification where
  id : Nat
deriving DecidableEq, Repr

/-- `Notifier::send_batch`: an empty batch returns immediately; otherwise the
batch is emitted (cloned into the message) and cleared — also on a send
failure, which is only logged. -/
def Notifier.send_batch (batch : List Notification) :
    List Notification × Option (List Notification) :=
  if batch.isEmpty then (batch, none) else ([], some batch)

/-- The events `Notifier::run` selects over: an inbound notification, or a
batch-timer tick (`delay_elapsed` records whether
`last_batch_time.elapsed() >= batch_delay`). -/
inductive NotifierEvent where
  | recv (n : Notification)
  | tick (delay_elapsed : Bool)

/-- One iteration of the `Notifier::run` select loop: push a received
notification and flush when the batch reaches `batch_size`; on a timer tick
flush when the batch is non-empty and the delay has passed. -/
def Notifier.step (batch_size : Nat) (batch : List Notification) :
    NotifierEvent → List Notification × Option (List Notification)
  | .recv n =>
      let b := batch ++ [n]
      if batch_size ≤ b.length then Notifier.send_batch b else (b, none)
  | .tick delay_elapsed =>
      if ¬ batch.isEmpty ∧ delay_elapsed = true then Notifier.send_batch batch
      else (batch, none)

/-- `Notifier::run` over a finite event trace: the final pending batch and the
batches emitted, in order. -/
def Notifier.run (batch_size : Nat) (batch : List Notification) :
    List NotifierEvent → List Notification × List (List Notification)
  | [] => (batch, [])
  | ev :: evs =>
      let r1 := Notifier.step batch_size batch ev
      let r2 := Notifier.run batch_size r1.1 evs
      (r2.1, r1.2.toList ++ r2.2)

/-- The notifications received over a trace, in arrival order. -/
def NotifierEvent.received (evs : List NotifierEvent) : List Notification :=
  evs.filterMap fun ev =>
    match ev with
    | .recv n => some n
    | .tick _ => none

/-! ## Manager checker construction (`crates/healthcheck-server/src/manager.rs`) -/

/-- `reqwest::Method`, restricted to the variants `create_monitor` can
produce. -/
inductive ReqwestMethod where
  | GET
  | POST
  | HEAD
  | PUT
  | DELETE
deriving DecidableEq, Repr

/-- The HTTP fields of `CheckerConfig::Http`
(`crates/healthcheck-server/src/types.rs`); the ip is kept as its display
string. -/
structure HttpCheckerCfg where
  ip : String
  port : Nat
  method : String
  path : String
  expected_codes : List Nat
  secure : Bool
deriving DecidableEq, Repr

/-- The fields of `HttpChecker` relevant to request construction
(`crates/healthcheck/src/checkers.rs`). -/
structure HttpChecker where
  url : String
  method : ReqwestMethod
  expected_codes : List Nat
deriving DecidableEq, Repr

/-- `str::to_uppercase`, character by character (on the ASCII method names
the match compares against, Unicode uppercasing and ASCII uppercasing
coincide). -/
def rustToUppercase (s : String) : String :=
  ⟨s.data.map Char.toUpper⟩

/-- The method match of `Manager::create_monitor`:
`match method.to_uppercase().as_str() { "GET" => GET, ..., _ => GET }`. -/
def Manager.method_from_string (method : String) : ReqwestMethod :=
  let u := rustToUppercase method
  if u = "GET" then .GET
  else if u = "POST" then .POST
  else if u = "HEAD" then .HEAD
  else if u = "PUT" then .PUT
  else if u = "DELETE" then .DELETE
  else .GET

/-- The `CheckerConfig::Http` arm of `Manager::create_monitor`: build the URL,
translate the method string (unknown methods silently fall back to `GET`) and
construct the checker.  `reqwest::Client::builder().timeout(..).build()`
cannot fail with only a timeout configured, so the construction succeeds. -/
def Manager.create_monitor_http (cfg : HttpCheckerCfg) : Option HttpChecker :=
  let protocol := if cfg.secure then "https" else "http"
  let url := protocol ++ "://" ++ cfg.ip ++ ":" ++ toString cfg.port ++ cfg.path
  let req_method := Manager.method_from_string cfg.method
  some { url := url, method := req_method, expected_codes := cfg.expected_codes }

/-! ## IPVS types (`crates/ipvs/src/types.rs`) -/

/-- `Protocol`. -/
inductive Protocol where
  | TCP
  | UDP
  | SCTP
  | Other (n : Nat)
deriving DecidableEq, Repr

/-- `Scheduler`.  A custom scheduler name (`Other`) is carried as the UTF-8
bytes of the Rust `String`. -/
inductive Scheduler where
  | RoundRobin
  | WeightedRoundRobin
  | LeastConnection
  | WeightedLeastConnection
  | SourceHashing
  | MaglevHashing
  | Other (s : List Nat)
deriving DecidableEq, Repr

/-- `impl fmt::Display for Scheduler`, as the UTF-8 bytes of the rendered
name ("rr", "wrr", "lc", "wlc", "sh", "mh", or the custom string). -/
def Scheduler.display : Scheduler → List Nat
  | .RoundRobin => [114, 114]
  | .WeightedRoundRobin => [119, 114, 114]
  | .LeastConnection => [108, 99]
  | .WeightedLeastConnection => [119, 108, 99]
  | .SourceHashing => [115, 104]
  | .MaglevHashing => [109, 104]
  | .Other s => s

/-- `ServiceStats` (read-only statistics block; not emitted). -/
structure ServiceStats where
  connections : Nat
  packets_in : Nat
  packets_out : Nat
  bytes_in : Nat
  bytes_out : Nat
  cps : Nat
  pps_in : Nat
  pps_out : Nat
  bps_in : Nat
  bps_out : Nat
deriving DecidableEq, Repr

/-- `ServiceStats::default()`. -/
def ServiceStats.default : ServiceStats := ⟨0, 0, 0, 0, 0, 0, 0, 0, 0, 0⟩

/-- `Service`.  `flags` is the `u32` inside `ServiceFlags`; the persistence
engine string is carried as UTF-8 bytes. -/
structure Service where
  address : IpAddr
  protocol : Protocol
  port : Nat
  fwmark : Nat
  scheduler : Scheduler
  flags : Nat
  timeout : Nat
  persistence_engine : Option (List Nat)
  statistics : ServiceStats
deriving DecidableEq, Repr

/-! ## IPVS service attribute codec (`crates/ipvs/src/messages.rs`) -/

/-- `ServiceNla`.  The `Scheduler` payload is the UTF-8 bytes of the Rust
`String`. -/
inductive ServiceNla where
  | AddressFamily (v : Nat)
  | Protocol (v : Nat)
  | Address (v : Nat)
  | Port (v : Nat)
  | FirewallMark (v : Nat)
  | Scheduler (s : List Nat)
  | Flags (flags mask : Nat)
  | Timeout (v : Nat)
  | Netmask (v : Nat)
  | Other (kind : Nat) (bytes : List Nat)
deriving DecidableEq, Repr

/-- `Nla::kind` for `ServiceNla` (the `IPVSServiceAttr` numbers). -/
def ServiceNla.kindOf : ServiceNla → Nat
  | .AddressFamily _ => 1
  | .Protocol _ => 2
  | .Address _ => 3
  | .Port _ => 4
  | .FirewallMark _ => 5
  | .Scheduler _ => 6
  | .Flags _ _ => 7
  | .Timeout _ => 8
  | .Netmask _ => 9
  | .Other k _ => k

/-- `Nla::emit_value` for `ServiceNla`: native-endian (little-endian host) for
family, protocol, fwmark, flags, timeout and netmask; big-endian for address
and port; a null-terminated string for the scheduler. -/
def ServiceNla.emit_value : ServiceNla → List Nat
  | .AddressFamily v => le16 v
  | .Protocol v => le16 v
  | .Address v => be32 v
  | .Port v => be16 v
  | .FirewallMark v => le32 v
  | .Scheduler s => s ++ [0]
  | .Flags flags mask => le32 flags ++ le32 mask
  | .Timeout v => le32 v
  | .Netmask v => le32 v
  | .Other _ bytes => bytes

/-- Whether a byte is a UTF-8 continuation byte (`0x80..=0xBF`). -/
def utf8Cont (c : Nat) : Bool := 128 ≤ c ∧ c ≤ 191

/-- One UTF-8 sequence step of `std::str::from_utf8`'s validation: check the
lead byte and its continuation bytes (including the surrogate and
overlong-encoding exclusions) and return the remaining bytes, or `none` when
the sequence is invalid. -/
def utf8SeqRemainder : List Nat → Option (List Nat)
  | [] => none
  | b :: rest =>
      if b < 128 then some rest
      else if 194 ≤ b ∧ b ≤ 223 then
        match rest with
        | c :: r => if utf8Cont c then some r else none
        | [] => none
      else if b = 224 then
        match rest with
        | c :: d :: r => if (160 ≤ c && c ≤ 191) && utf8Cont d then some r else none
        | _ => none
      else if (225 ≤ b ∧ b ≤ 236) ∨ b = 238 ∨ b = 239 then
        match rest with
        | c :: d :: r => if utf8Cont c && utf8Cont d then some r else none
        | _ => none
      else if b = 237 then
        match rest with
        | c :: d :: r => if (128 ≤ c && c ≤ 159) && utf8Cont d then some r else none
        | _ => none
      else if b = 240 then
        match rest with
        | c :: d :: e :: r =>
            if (144 ≤ c && c ≤ 191) && utf8Cont d && utf8Cont e then some r else none
        | _ => none
      else if 241 ≤ b ∧ b ≤ 243 then
        match rest with
        | c :: d :: e :: r => if utf8Cont c && utf8Cont d && utf8Cont e then some r else none
        | _ => none
      else if b = 244 then
        match rest with
        | c :: d :: e :: r =>
            if (128 ≤ c && c ≤ 143) && utf8Cont d && utf8Cont e then some r else none
        | _ => none
      else none

/-- The validation loop over the byte sequence.  Fuel is bounded by the
number of bytes: every sequence consumes at least one byte, so `l.length`
fuel always suffices. -/
def utf8ValidAux : Nat → List Nat → Bool
  | _, [] => true
  | 0, _ :: _ => false
  | fuel + 1, b :: rest =>
      match utf8SeqRemainder (b :: rest) with
      | some r => utf8ValidAux fuel r
      | none => false

/-- Validity of a byte sequence as UTF-8, as `std::str::from_utf8` checks it. -/
def utf8Valid (l : List Nat) : Bool := utf8ValidAux l.length l

/-- `str::trim_end_matches('\0')` on UTF-8 bytes: drop all trailing NULs. -/
def trimEndZeros (l : List Nat) : List Nat :=
  (l.reverse.dropWhile (· = 0)).reverse

/-- `ServiceNla::parse` on one attribute, given its kind and value payload.
Only `AddressFamily`, `Protocol`, `Address`, `Port` and `Scheduler` are
recognised; every other kind — including `FirewallMark`, `Flags`, `Timeout`
and `Netmask` — falls through to `Other(kind, payload)`. -/
def ServiceNla.parse (kind : Nat) (payload : List Nat) : Except String ServiceNla :=
  if kind = 1 then
    if payload.length = 2 then .ok (.AddressFamily (readLe16 payload))
    else .error "Invalid address family"
  else if kind = 2 then
    if payload.length = 2 then .ok (.Protocol (readLe16 payload))
    else .error "Invalid protocol"
  else if kind = 3 then
    if payload.length = 4 then .ok (.Address (readBe32 payload))
    else .error "Invalid address"
  else if kind = 4 then
    if payload.length = 2 then .ok (.Port (readBe16 payload))
    else .error "Invalid port"
  else if kind = 6 then
    if utf8Valid payload then .ok (.Scheduler (trimEndZeros payload))
    else .error "Invalid scheduler name"
  else .ok (.Other kind payload)

/-- The service attribute list as it appears on the wire: each attribute's
kind and emitted value payload, in order. -/
def emit_service_nlas (nlas : List ServiceNla) : List (Nat × List Nat) :=
  nlas.map fun a => (a.kindOf, a.emit_value)

/-- Parsing a service attribute list: `ServiceNla::parse` applied to each
encoded attribute in order. -/
def parse_service_nlas : List (Nat × List Nat) → Except String (List ServiceNla)
  | [] => .ok []
  | (k, v) :: rest => do
      let a ← ServiceNla.parse k v
      let tail ← parse_service_nlas rest
      .ok (a :: tail)

/-- `Protocol` as pushed by `to_service_nlas` (`IPPROTO_TCP = 6`,
`IPPROTO_UDP = 17`, `SCTP = 132`, `Other(n) => n as u16`). -/
def Protocol.number : Protocol → Nat
  | .TCP => 6
  | .UDP => 17
  | .SCTP => 132
  | .Other n => n

/-- `Service::to_service_nlas`.  The address value is
`u32::from(ip).to_be()` (an IPv6 address degrades to 0 — "For now, only
support IPv4"), the port value is `port.to_be()`; address and port are
omitted when `fwmark != 0`; `Flags` carries the flag word twice; `Timeout`
is pushed only when positive. -/
def Service.to_service_nlas (s : Service) : List ServiceNla :=
  let af : Nat := 2
  let addr_value : Nat :=
    match s.address with
    | .v4 a b c d => u32_to_be (u32_from_v4 a b c d)
    | .v6 _ => 0
  [ServiceNla.AddressFamily af, ServiceNla.Protocol s.protocol.number]
    ++ (if s.fwmark = 0 then
          [ServiceNla.Address addr_value, ServiceNla.Port (u16_to_be s.port)]
        else
          [ServiceNla.FirewallMark s.fwmark])
    ++ [ServiceNla.Scheduler s.scheduler.display,
        ServiceNla.Flags s.flags s.flags]
    ++ (if 0 < s.timeout then [ServiceNla.Timeout s.timeout] else [])

/-- What the parser gives back for an emitted attribute: the recognised
attributes survive unchanged, while `FirewallMark`, `Flags`, `Timeout` and
`Netmask` come back as `Other(kind, wire bytes)`. -/
def ServiceNla.degrade : ServiceNla → ServiceNla
  | .FirewallMark v => .Other 5 (le32 v)
  | .Flags flags mask => .Other 7 (le32 flags ++ le32 mask)
  | .Timeout v => .Other 8 (le32 v)
  | .Netmask v => .Other 9 (le32 v)
  | a => a

/-- A v4 address has octet-sized components (`Ipv4Addr` stores bytes). -/
def IpAddr.v4OctetsOk : IpAddr → Bool
  | .v4 a b c d => a < 256 && b < 256 && c < 256 && d < 256
  | .v6 _ => true

/-- The protocol number fits the Rust types (`Other` holds a `u8`). -/
def Protocol.numByteOk : Protocol → Bool
  | .Other n => n < 256
  | _ => true

/-- The side conditions under which the service attribute emission is
realizable from the Rust types: octet-sized address bytes, `u16` port,
`u8` protocol number for `Other`, and a scheduler display string of
non-NUL ASCII bytes. -/
def Service.wellFormed (s : Service) : Prop :=
  s.address.v4OctetsOk = true ∧
  s.port < 65536 ∧
  s.protocol.numByteOk = true ∧
  (∀ b ∈ s.scheduler.display, 0 < b ∧ b < 128)

instance (s : Service) : Decidable s.wellFormed := by
  unfold Service.wellFormed; infer_instance

/-! ## IPVS driver operations (`crates/ipvs/src/lib.rs`) -/

/-- `common::Error`, restricted to the variants the driver constructs. -/
inductive CommonError where
  | Netlink (msg : String)
  | IPVS (msg : String)
deriving DecidableEq, Repr

/-- The public `IPVSManager` operations (besides `new`/`family_id`). -/
inductive IpvsOp where
  | version
  | flush
  | add_service
  | update_service
  | delete_service
  | get_service
  | get_services
  | add_destination
  | update_destination
  | delete_destination
deriving DecidableEq, Repr

/-- Netlink traffic performed by one driver call: requests written to and
reply frames read from the socket. -/
structure NetlinkTraffic where
  requests_sent : Nat
  replies_consumed : Nat
deriving DecidableEq, Repr

/-- The body of each public `IPVSManager` operation: every one returns
`Err(Error::ipvs("Not yet implemented"))` without touching the netlink
socket (the result payloads of the `get_*` calls are elided since no
operation ever produces one). -/
def IPVSManager.operation (op : IpvsOp) : Except CommonError Unit × NetlinkTraffic :=
  match op with
  | .version => (.error (.IPVS "Not yet implemented"), ⟨0, 0⟩)
  | .flush => (.error (.IPVS "Not yet implemented"), ⟨0, 0⟩)
  | .add_service => (.error (.IPVS "Not yet implemented"), ⟨0, 0⟩)
  | .update_service => (.error (.IPVS "Not yet implemented"), ⟨0, 0⟩)
  | .delete_service => (.error (.IPVS "Not yet implemented"), ⟨0, 0⟩)
  | .get_service => (.error (.IPVS "Not yet implemented"), ⟨0, 0⟩)
  | .get_services => (.error (.IPVS "Not yet implemented"), ⟨0, 0⟩)
  | .add_destination => (.error (.IPVS "Not yet implemented"), ⟨0, 0⟩)
  | .update_destination => (.error (.IPVS "Not yet implemented"), ⟨0, 0⟩)
  | .delete_destination => (.error (.IPVS "Not yet implemented"), ⟨0, 0⟩)

/-! ## Concrete instances used by the theorems -/

/-- A Backup-state configuration: priority 200, 1 s advertisements,
preempt enabled. -/
def cfgBackup : VRRPConfig :=
  { vrid := 1, priority := 200, advert_interval := 100, interface := "eth0",
    virtual_ips := [.v4 192 168 1 1], preempt := true, accept_mode := false }

/-- A peer's primary IPv4 address. -/
def srcPeer : IpAddr := .v4 10 0 0 1

/-- A valid advertisement of priority 100 for VRID 1 (checksum computed
against the peer source and the VRRP multicast destination). -/
def advertLow : VRRPPacket :=
  (VRRPPacket.new 1 100 100 [.v4 192 168 1 1]).set_checksum srcPeer vrrpMulticastV4

/-- A valid priority-0 advertisement for VRID 1. -/
def advertZero : VRRPPacket :=
  (VRRPPacket.new 1 0 100 [.v4 192 168 1 1]).set_checksum srcPeer vrrpMulticastV4

/-- A malformed datagram: VRRP version 2 (`version_type = 0x21`). -/
def rawBadVersion : List Nat := [33, 1, 100, 1, 192, 168, 1, 1]

/-- A well-formed VRRP packet used as a round-trip witness. -/
def packetExample : VRRPPacket :=
  VRRPPacket.new 7 100 100 [.v4 192 168 1 1, .v4 192 168 1 2]

/-- A plain TCP round-robin service on 10.0.0.1:80. -/
def svcExample : Service :=
  { address := .v4 10 0 0 1, protocol := .TCP, port := 80, fwmark := 0,
    scheduler := .RoundRobin, flags := 0, timeout := 0,
    persistence_engine := none, statistics := ServiceStats.default }

/-- A short notifier trace: two notifications then a timer tick. -/
def notifierTrace : List NotifierEvent :=
  [.recv ⟨1⟩, .recv ⟨2⟩, .tick true]

/-- An HTTP check whose method is not one of the five recognised names. -/
def httpCfgPatch : HttpCheckerCfg :=
  { ip := "10.0.0.1", port := 8080, method := "patch", path := "/health",
    expected_codes := [200], secure := false }

/-! # Theorems -/

/-! ## Helper lemmas -/

theorem take_six_hdr (b0 b1 b2 b3 b4 b5 b6 b7 : Nat) (rest : List Nat) :
    List.take 6 (b0 :: b1 :: b2 :: b3 :: b4 :: b5 :: b6 :: b7 :: rest) =
      [b0, b1, b2, b3, b4, b5] := rfl

theorem drop_eight_hdr (b0 b1 b2 b3 b4 b5 b6 b7 : Nat) (rest : List Nat) :
    List.drop 8 (b0 :: b1 :: b2 :: b3 :: b4 :: b5 :: b6 :: b7 :: rest) = rest := rfl

/-- The checksum computation reads the serialized packet with bytes 6 and 7
skipped, so it does not depend on the packet's `checksum` field. -/
theorem calculate_checksum_checksum_free (p : VRRPPacket) (src dst : IpAddr) (c : Nat) :
    VRRPPacket.calculate_checksum { p with checksum := c } src dst =
      p.calculate_checksum src dst := by
  rcases src with ⟨a, b, c', d⟩ | s <;> rcases dst with ⟨e, f, g, h⟩ | t <;>
    simp only [VRRPPacket.calculate_checksum, VRRPPacket.to_bytes, be16,
      List.cons_append, List.nil_append, take_six_hdr, drop_eight_hdr,
      List.length_cons]

/-- A packet whose checksum was just computed for `(src, dst)` verifies
against `(src, dst)`. -/
theorem verify_checksum_set_checksum (p : VRRPPacket) (src dst : IpAddr) :
    (p.set_checksum src dst).verify_checksum src dst = true := by
  simp [VRRPPacket.set_checksum, VRRPPacket.verify_checksum,
    calculate_checksum_checksum_free]

/-! ## C1: Backup re-arm condition -/

/-- C1 (code evaluation): in Backup state with configured priority 200 and
`preempt = true`, a valid advertisement of priority 100 — which the
specification says must be ignored — makes `handle_advertisement_backup`
re-arm its deadline to `now + Master_Down_Interval` (3218 ms here) instead of
leaving it at its previous value: the code's condition is
`priority >= ours || preempt` where RFC 5798 (and the spec) require
`priority >= ours || !preempt`. -/
theorem backup_rearm_on_lower_priority_despite_preempt :
    VRRPNode.handle_advertisement_backup cfgBackup VRRPStats.default 0 999999 advertLow srcPeer =
      ({ VRRPStats.default with adverts_received := 1 }, 3218) ∧
    cfgBackup.master_down_interval_ms = 3218 ∧
    advertLow.priority = 100 ∧ cfgBackup.priority = 200 ∧ cfgBackup.preempt = true := by
  have hvrid : advertLow.vrid = 1 := rfl
  have hpri : advertLow.priority = 100 := rfl
  have hval : advertLow.verify_checksum srcPeer vrrpMulticastV4 = true :=
    verify_checksum_set_checksum _ _ _
  refine ⟨?_, by norm_num [VRRPConfig.master_down_interval_ms, cfgBackup], rfl, rfl, rfl⟩
  simp [VRRPNode.handle_advertisement_backup, show srcPeer.is_ipv6 = false from rfl,
    hval, hvrid, hpri, cfgBackup, VRRPStats.default, VRRPConfig.master_down_interval_ms]

/-! ## C2: priority-0 deadline collapse is lost -/

/-- C2 (code evaluation): on a valid priority-0 advertisement the handler
writes `now` (0 here) into the deadline reference it is given, but
`run_backup` hands it `&mut deadline.clone()`, so the loop's deadline stays at
its original value (3609 ms here) and the backup waits out the full
Master_Down_Interval instead of transitioning immediately. -/
theorem backup_priority_zero_collapse_discarded :
    (VRRPNode.run_backup_recv_step cfgBackup VRRPStats.default 0 3609 advertZero srcPeer).2 = 3609 ∧
    (VRRPNode.handle_advertisement_backup cfgBackup VRRPStats.default 0 3609 advertZero srcPeer).2 = 0 ∧
    advertZero.priority = 0 := by
  have hvrid : advertZero.vrid = 1 := rfl
  have hpri : advertZero.priority = 0 := rfl
  have hval : advertZero.verify_checksum srcPeer vrrpMulticastV4 = true :=
    verify_checksum_set_checksum _ _ _
  refine ⟨rfl, ?_, rfl⟩
  simp [VRRPNode.handle_advertisement_backup, show srcPeer.is_ipv6 = false from rfl,
    hval, hvrid, hpri, cfgBackup]

/-! ## C5: malformed packets and the invalid_adverts counter -/

/-- C5 (code evaluation): a malformed datagram (VRRP version 2) makes
`VRRPPacket::parse` fail; `run_backup` only logs the resulting receive error,
so the packet is dropped with the state and every statistic — in particular
`invalid_adverts` — unchanged (the counter is never incremented anywhere). -/
theorem malformed_packet_counter_untouched :
    VRRPNode.run_backup_recv_event cfgBackup .Backup VRRPStats.default 0 3609 rawBadVersion srcPeer =
      (.Backup, VRRPStats.default, 3609) ∧
    VRRPStats.default.invalid_adverts = 0 ∧
    VRRPSocket.recv_parse rawBadVersion = .error "Invalid VRRP version" := by
  exact ⟨rfl, rfl, rfl⟩

/-! ## C7: rise/fall hysteresis thresholds -/

/-- C7: for every processed check result, a down→up transition implies
`consecutive_successes ≥ rise` at that instant and an up→down transition
implies `consecutive_failures ≥ fall`; `Timeout` and `Error` results extend
the failure streak and clear the success streak, and a `Healthy` result does
the opposite. -/
theorem monitor_transition_thresholds (config : HealthCheckConfig)
    (stats : HealthCheckStats) (was_up : Bool) (result : HealthCheckResult) :
    (was_up = false →
      (HealthCheckMonitor.process_result config stats was_up result).2 = true →
      (HealthCheckMonitor.process_result config stats was_up result).1.consecutive_successes ≥
        config.rise) ∧
    (was_up = true →
      (HealthCheckMonitor.process_result config stats was_up result).2 = false →
      (HealthCheckMonitor.process_result config stats was_up result).1.consecutive_failures ≥
        config.fall) ∧
    ((result.status = .Timeout ∨ result.status = .Error) →
      (HealthCheckMonitor.process_result config stats was_up result).1.consecutive_failures =
        stats.consecutive_failures + 1 ∧
      (HealthCheckMonitor.process_result config stats was_up result).1.consecutive_successes = 0) ∧
    (result.status = .Healthy →
      (HealthCheckMonitor.process_result config stats was_up result).1.consecutive_successes =
        stats.consecutive_successes + 1 ∧
      (HealthCheckMonitor.process_result config stats was_up result).1.consecutive_failures = 0) := by
  rcases result with ⟨st, d, m, rc⟩
  cases st <;> cases was_up <;>
    simp_all [HealthCheckMonitor.process_result, HealthCheckStats.update]

/-- C7 witness: with `rise = 1`, a single `Healthy` result from the all-zero
statistics transitions the monitor up, with the success streak meeting the
threshold. -/
theorem monitor_transition_thresholds_witness :
    (HealthCheckMonitor.process_result ⟨"t", 100, 100, 1, 1⟩ HealthCheckStats.default false
        ⟨.Healthy, 5, none, none⟩).1.consecutive_successes ≥ 1 :=
  (monitor_transition_thresholds ⟨"t", 100, 100, 1, 1⟩ HealthCheckStats.default false
    ⟨.Healthy, 5, none, none⟩).1 rfl (by decide)

/-! ## C9: monitor start/stop idempotence -/

/-- C9 counterexample: starting an idle monitor twice leaves two concurrent
probing tasks running — the second `start` spawns again instead of having no
effect. -/
theorem monitor_start_not_idempotent :
    (HealthCheckMonitor.start (HealthCheckMonitor.start ⟨0, false⟩)).tasks = 2 ∧
    HealthCheckMonitor.start (HealthCheckMonitor.start ⟨0, false⟩) ≠
      HealthCheckMonitor.start ⟨0, false⟩ := by
  decide

/-- C9 amended: `start` is not idempotent — each call spawns one more
concurrent probing task; `stop` on an already-stopped monitor only stores a
single `Notify` permit (so repeated stops coincide), and `stop` with a task
running cancels exactly one task via the notification primitive. -/
theorem monitor_lifecycle (m : MonitorTasks) :
    (HealthCheckMonitor.start (HealthCheckMonitor.start m)).tasks = m.tasks + 2 ∧
    (m.tasks = 0 →
      HealthCheckMonitor.stop (HealthCheckMonitor.stop m) = HealthCheckMonitor.stop m ∧
      (HealthCheckMonitor.stop m).permit = true) ∧
    (0 < m.tasks → (HealthCheckMonitor.stop m).tasks = m.tasks - 1) := by
  refine ⟨rfl, fun h => ?_, fun h => ?_⟩ <;>
    simp [HealthCheckMonitor.stop, h, Nat.pos_iff_ne_zero.mp]

/-- C9 witness: the amended statement evaluated on an idle monitor. -/
theorem monitor_lifecycle_witness :
    (HealthCheckMonitor.start (HealthCheckMonitor.start ⟨0, false⟩)).tasks = 0 + 2 ∧
    HealthCheckMonitor.stop (HealthCheckMonitor.stop ⟨0, false⟩) =
      HealthCheckMonitor.stop ⟨0, false⟩ :=
  ⟨(monitor_lifecycle ⟨0, false⟩).1, ((monitor_lifecycle ⟨0, false⟩).2.1 rfl).1⟩

/-! ## C10: unrecognised HTTP methods fall back to GET -/

/-- C10: when the uppercased method string is none of GET, POST, HEAD, PUT,
DELETE, `create_monitor` still builds the HTTP checker — with a GET request —
and reports no error for the unrecognised method. -/
theorem http_unknown_method_builds_get (cfg : HttpCheckerCfg)
    (h : rustToUppercase cfg.method ≠ "GET" ∧ rustToUppercase cfg.method ≠ "POST" ∧
         rustToUppercase cfg.method ≠ "HEAD" ∧ rustToUppercase cfg.method ≠ "PUT" ∧
         rustToUppercase cfg.method ≠ "DELETE") :
    (Manager.create_monitor_http cfg).isSome = true ∧
    (Manager.create_monitor_http cfg).map HttpChecker.method = some ReqwestMethod.GET := by
  obtain ⟨h1, h2, h3, h4, h5⟩ := h
  simp [Manager.create_monitor_http, Manager.method_from_string, h1, h2, h3, h4, h5]

/-- C10 witness: the method "patch" (uppercased: "PATCH") silently yields a
GET checker. -/
theorem http_unknown_method_builds_get_witness :
    (Manager.create_monitor_http httpCfgPatch).isSome = true ∧
    (Manager.create_monitor_http httpCfgPatch).map HttpChecker.method =
      some ReqwestMethod.GET :=
  http_unknown_method_builds_get httpCfgPatch (by decide)

/-! ## C4: IPVS driver operations -/

/-- C4 counterexample: `version()` performs no netlink request at all and
fails unconditionally with the IPVS-kind "Not yet implemented" error. -/
theorem ipvs_version_unimplemented :
    (IPVSManager.operation .version).2.requests_sent ≠ 1 ∧
    (IPVSManager.operation .version).1 = .error (.IPVS "Not yet implemented") := by
  exact ⟨by decide, rfl⟩

/-- C4 amended: every public IPVS driver operation unconditionally returns
the IPVS-category error "Not yet implemented", emitting no netlink request
and consuming no reply frame. -/
theorem ipvs_operations_all_unimplemented (op : IpvsOp) :
    IPVSManager.operation op = (.error (.IPVS "Not yet implemented"), ⟨0, 0⟩) := by
  cases op <;> rfl

/-! ## C8: notifier batch bounds and order -/

theorem notifier_step_recv_flush (bs : Nat) (batch : List Notification) (n : Notification)
    (h : bs ≤ (batch ++ [n]).length) :
    Notifier.step bs batch (.recv n) = ([], some (batch ++ [n])) := by
  have hne : (batch ++ [n]).isEmpty = false := by simp
  have h2 : bs ≤ batch.length + 1 := by simpa using h
  simp [Notifier.step, Notifier.send_batch, hne, h2]

theorem notifier_step_recv_keep (bs : Nat) (batch : List Notification) (n : Notification)
    (h : ¬ bs ≤ (batch ++ [n]).length) :
    Notifier.step bs batch (.recv n) = (batch ++ [n], none) := by
  have h2 : ¬ bs ≤ batch.length + 1 := by simpa using h
  simp [Notifier.step, Notifier.send_batch, h2]

theorem notifier_step_tick_flush (bs : Nat) (batch : List Notification) (e : Bool)
    (h : batch.isEmpty = false) (he : e = true) :
    Notifier.step bs batch (.tick e) = ([], some batch) := by
  simp [Notifier.step, Notifier.send_batch, h, he]

theorem notifier_step_tick_keep (bs : Nat) (batch : List Notification) (e : Bool)
    (h : ¬ (¬ batch.isEmpty = true ∧ e = true)) :
    Notifier.step bs batch (.tick e) = (batch, none) := by
  simp only [Notifier.step, if_neg h]

theorem notifier_run_cons (bs : Nat) (batch : List Notification) (ev : NotifierEvent)
    (evs : List NotifierEvent) :
    Notifier.run bs batch (ev :: evs) =
      ((Notifier.run bs (Notifier.step bs batch ev).1 evs).1,
       (Notifier.step bs batch ev).2.toList ++
         (Notifier.run bs (Notifier.step bs batch ev).1 evs).2) := rfl

theorem received_cons_recv (n : Notification) (evs : List NotifierEvent) :
    NotifierEvent.received (.recv n :: evs) = n :: NotifierEvent.received evs := rfl

theorem received_cons_tick (e : Bool) (evs : List NotifierEvent) :
    NotifierEvent.received (.tick e :: evs) = NotifierEvent.received evs := rfl

/-- Invariant of the notifier loop: starting from a pending batch smaller
than `batch_size`, every emitted batch has between 1 and `batch_size`
notifications, and the emitted batches followed by the final pending batch
are exactly the pending prefix followed by the received notifications, in
order. -/
theorem notifier_run_invariant (batch_size : Nat) (hbs : 1 ≤ batch_size) :
    ∀ (evs : List NotifierEvent) (batch : List Notification),
      batch.length < batch_size →
      (∀ b ∈ (Notifier.run batch_size batch evs).2,
        1 ≤ b.length ∧ b.length ≤ batch_size) ∧
      ((Notifier.run batch_size batch evs).2.flatten ++ (Notifier.run batch_size batch evs).1 =
        batch ++ NotifierEvent.received evs) := by
  intro evs
  induction evs with
  | nil =>
      intro batch _
      simp [Notifier.run, NotifierEvent.received]
  | cons ev evs ih =>
      intro batch hlt
      cases ev with
      | recv n =>
          by_cases hfull : batch_size ≤ (batch ++ [n]).length
          · have hlen : (batch ++ [n]).length = batch_size := by
              simp only [List.length_append, List.length_cons, List.length_nil] at hfull ⊢
              omega
            obtain ⟨ih1, ih2⟩ := ih [] (by simp only [List.length_nil]; omega)
            rw [notifier_run_cons, notifier_step_recv_flush _ _ _ hfull]
            refine ⟨?_, ?_⟩
            · intro b hb
              simp only [Option.toList_some, List.cons_append, List.nil_append,
                List.mem_cons] at hb
              rcases hb with rfl | hb
              · exact ⟨by omega, by omega⟩
              · exact ih1 b hb
            · simp only [Option.toList_some, List.cons_append, List.nil_append,
                List.flatten_cons, received_cons_recv]
              rw [List.append_assoc, ih2]
              simp
          · have hlt2 : (batch ++ [n]).length < batch_size := by omega
            obtain ⟨ih1, ih2⟩ := ih (batch ++ [n]) hlt2
            rw [notifier_run_cons, notifier_step_recv_keep _ _ _ hfull]
            refine ⟨?_, ?_⟩
            · intro b hb
              simp only [Option.toList_none, List.nil_append] at hb
              exact ih1 b hb
            · simp only [Option.toList_none, List.nil_append, received_cons_recv]
              rw [ih2]
              simp
      | tick delay_elapsed =>
          by_cases hcond : ¬ batch.isEmpty = true ∧ delay_elapsed = true
          · have hne : batch.isEmpty = false := by
              rcases hcond with ⟨h1, _⟩
              simpa using h1
            have hpos : 1 ≤ batch.length := by
              rcases batch with _ | ⟨x, xs⟩
              · simp at hne
              · simp
            obtain ⟨ih1, ih2⟩ := ih [] (by simp only [List.length_nil]; omega)
            rw [notifier_run_cons, notifier_step_tick_flush _ _ _ hne hcond.2]
            refine ⟨?_, ?_⟩
            · intro b hb
              simp only [Option.toList_some, List.cons_append, List.nil_append,
                List.mem_cons] at hb
              rcases hb with rfl | hb
              · exact ⟨hpos, by omega⟩
              · exact ih1 b hb
            · simp only [Option.toList_some, List.cons_append, List.nil_append,
                List.flatten_cons, received_cons_tick]
              rw [List.append_assoc, ih2]
              simp
          · obtain ⟨ih1, ih2⟩ := ih batch hlt
            rw [notifier_run_cons, notifier_step_tick_keep _ _ _ hcond]
            refine ⟨?_, ?_⟩
            · intro b hb
              simp only [Option.toList_none, List.nil_append] at hb
              exact ih1 b hb
            · simp only [Option.toList_none, List.nil_append, received_cons_tick]
              rw [ih2]

/-- C8: over any event trace, every batch the notifier emits holds between 1
and `batch_size` notifications — an empty batch is never emitted — and the
emitted batches (followed by what is still pending) list the received
notifications in enqueue order. -/
theorem notifier_batch_bounds (batch_size : Nat) (evs : List NotifierEvent)
    (hbs : 1 ≤ batch_size) :
    (∀ b ∈ (Notifier.run batch_size [] evs).2,
      1 ≤ b.length ∧ b.length ≤ batch_size) ∧
    (Notifier.run batch_size [] evs).2.flatten ++ (Notifier.run batch_size [] evs).1 =
      NotifierEvent.received evs := by
  obtain ⟨h1, h2⟩ := notifier_run_invariant batch_size hbs evs []
    (by simp only [List.length_nil]; omega)
  exact ⟨h1, by simpa using h2⟩

/-- C8 witness: with `batch_size = 2`, two notifications and a tick produce
exactly one batch of size 2 carrying the notifications in order. -/
theorem notifier_batch_bounds_witness :
    (∀ b ∈ (Notifier.run 2 [] notifierTrace).2, 1 ≤ b.length ∧ b.length ≤ 2) ∧
    (Notifier.run 2 [] notifierTrace).2.flatten ++ (Notifier.run 2 [] notifierTrace).1 =
      NotifierEvent.received notifierTrace :=
  notifier_batch_bounds 2 notifierTrace (by decide)

/-! ## C6: VRRP packet round-trip -/

theorem getD_hdr0 (b0 b1 b2 b3 b4 b5 b6 b7 : Nat) (rest : List Nat) :
    (b0 :: b1 :: b2 :: b3 :: b4 :: b5 :: b6 :: b7 :: rest).getD 0 0 = b0 := rfl

theorem getD_hdr1 (b0 b1 b2 b3 b4 b5 b6 b7 : Nat) (rest : List Nat) :
    (b0 :: b1 :: b2 :: b3 :: b4 :: b5 :: b6 :: b7 :: rest).getD 1 0 = b1 := rfl

theorem getD_hdr2 (b0 b1 b2 b3 b4 b5 b6 b7 : Nat) (rest : List Nat) :
    (b0 :: b1 :: b2 :: b3 :: b4 :: b5 :: b6 :: b7 :: rest).getD 2 0 = b2 := rfl

theorem getD_hdr3 (b0 b1 b2 b3 b4 b5 b6 b7 : Nat) (rest : List Nat) :
    (b0 :: b1 :: b2 :: b3 :: b4 :: b5 :: b6 :: b7 :: rest).getD 3 0 = b3 := rfl

theorem getD_hdr4 (b0 b1 b2 b3 b4 b5 b6 b7 : Nat) (rest : List Nat) :
    (b0 :: b1 :: b2 :: b3 :: b4 :: b5 :: b6 :: b7 :: rest).getD 4 0 = b4 := rfl

theorem getD_hdr5 (b0 b1 b2 b3 b4 b5 b6 b7 : Nat) (rest : List Nat) :
    (b0 :: b1 :: b2 :: b3 :: b4 :: b5 :: b6 :: b7 :: rest).getD 5 0 = b5 := rfl

theorem getD_hdr6 (b0 b1 b2 b3 b4 b5 b6 b7 : Nat) (rest : List Nat) :
    (b0 :: b1 :: b2 :: b3 :: b4 :: b5 :: b6 :: b7 :: rest).getD 6 0 = b6 := rfl

theorem getD_hdr7 (b0 b1 b2 b3 b4 b5 b6 b7 : Nat) (rest : List Nat) :
    (b0 :: b1 :: b2 :: b3 :: b4 :: b5 :: b6 :: b7 :: rest).getD 7 0 = b7 := rfl

theorem length_hdr (b0 b1 b2 b3 b4 b5 b6 b7 : Nat) (rest : List Nat) :
    (b0 :: b1 :: b2 :: b3 :: b4 :: b5 :: b6 :: b7 :: rest).length = 8 + rest.length := by
  simp only [List.length_cons]
  omega

theorem v4_flat_length (ips : List IpAddr) (h : ∀ a ∈ ips, a.is_ipv6 = false) :
    ((ips.map IpAddr.octets).flatten).length = 4 * ips.length := by
  induction ips with
  | nil => simp
  | cons a t ih =>
      have ha := h a (List.mem_cons_self a t)
      have ht : ∀ x ∈ t, x.is_ipv6 = false := fun x hx => h x (List.mem_cons_of_mem a hx)
      rcases a with ⟨a1, a2, a3, a4⟩ | o
      · simp only [List.map_cons, List.flatten_cons, List.length_append, IpAddr.octets,
          List.length_cons, List.length_nil, ih ht]
        omega
      · simp [IpAddr.is_ipv6] at ha

theorem parseV4Addrs_cons (n a b c d : Nat) (rest : List Nat) :
    parseV4Addrs (n + 1) (a :: b :: c :: d :: rest) =
      (parseV4Addrs n rest).map (fun ips => IpAddr.v4 a b c d :: ips) := rfl

theorem parseV6Addrs_cons (n : Nat) (bytes : List Nat) :
    parseV6Addrs (n + 1) bytes =
      if 16 ≤ bytes.length then
        (parseV6Addrs n (bytes.drop 16)).map (fun ips => IpAddr.v6 (bytes.take 16) :: ips)
      else .error "Truncated IPv6 address" := rfl

theorem parseV4Addrs_flatten (ips : List IpAddr) (h : ∀ a ∈ ips, a.is_ipv6 = false) :
    parseV4Addrs ips.length ((ips.map IpAddr.octets).flatten) = .ok ips := by
  induction ips with
  | nil => simp [parseV4Addrs]
  | cons a t ih =>
      have ha := h a (List.mem_cons_self a t)
      have ht : ∀ x ∈ t, x.is_ipv6 = false := fun x hx => h x (List.mem_cons_of_mem a hx)
      rcases a with ⟨a1, a2, a3, a4⟩ | o
      · have hflat : ((IpAddr.v4 a1 a2 a3 a4 :: t).map IpAddr.octets).flatten =
            a1 :: a2 :: a3 :: a4 :: (t.map IpAddr.octets).flatten := by
          simp [IpAddr.octets]
        rw [List.length_cons, hflat, parseV4Addrs_cons, ih ht]
        rfl
      · simp [IpAddr.is_ipv6] at ha

theorem v6_flat_length (ips : List IpAddr)
    (h : ∀ a ∈ ips, a.is_ipv6 = true ∧ a.octets.length = 16) :
    ((ips.map IpAddr.octets).flatten).length = 16 * ips.length := by
  induction ips with
  | nil => simp
  | cons a t ih =>
      have ha := (h a (List.mem_cons_self a t)).2
      have ht : ∀ x ∈ t, x.is_ipv6 = true ∧ x.octets.length = 16 :=
        fun x hx => h x (List.mem_cons_of_mem a hx)
      simp only [List.map_cons, List.flatten_cons, List.length_append, ha, ih ht,
        List.length_cons]
      omega

theorem parseV6Addrs_flatten (ips : List IpAddr)
    (h : ∀ a ∈ ips, a.is_ipv6 = true ∧ a.octets.length = 16) :
    parseV6Addrs ips.length ((ips.map IpAddr.octets).flatten) = .ok ips := by
  induction ips with
  | nil => simp [parseV6Addrs]
  | cons a t ih =>
      obtain ⟨ha6, ha16⟩ := h a (List.mem_cons_self a t)
      have ht : ∀ x ∈ t, x.is_ipv6 = true ∧ x.octets.length = 16 :=
        fun x hx => h x (List.mem_cons_of_mem a hx)
      rcases a with ⟨a1, a2, a3, a4⟩ | o
      · simp [IpAddr.is_ipv6] at ha6
      · simp only [IpAddr.octets] at ha16
        have hflat : ((IpAddr.v6 o :: t).map IpAddr.octets).flatten =
            o ++ (t.map IpAddr.octets).flatten := by
          simp [IpAddr.octets]
        rw [List.length_cons, hflat, parseV6Addrs_cons]
        rw [if_pos (by simp only [List.length_append, ha16]; omega)]
        rw [List.take_left' ha16, List.drop_left' ha16, ih ht]
        rfl

/-- C6: parsing the serialization of any well-formed VRRP packet (version 3,
type 1, `count_ip` equal to the number of virtual IPs, one address family,
12-bit `max_advert_int`) returns the packet unchanged. -/
theorem vrrp_packet_roundtrip (p : VRRPPacket) (h : p.wellFormed) :
    VRRPPacket.parse p.to_bytes = .ok p := by
  obtain ⟨vt, vr, pr, cnt, mai, cs, ips⟩ := p
  obtain ⟨hvt, hcnt, hlt, hmai, hcs, hfam⟩ := h
  simp only [VRRP_VERSION, VRRP_TYPE_ADVERTISEMENT] at hvt
  simp only at hvt hcnt hlt hmai hcs hfam
  subst hvt
  subst hcnt
  have hbytes : (VRRPPacket.mk 49 vr pr ips.length mai cs ips).to_bytes =
      49 :: vr :: pr :: ips.length ::
      (mai / 256 % 256) :: (mai % 256) :: (cs / 256 % 256) :: (cs % 256) ::
      (ips.map IpAddr.octets).flatten := by
    simp [VRRPPacket.to_bytes, be16]
  rw [hbytes, VRRPPacket.parse]
  rw [length_hdr, getD_hdr0, getD_hdr1, getD_hdr2, getD_hdr3, getD_hdr4, getD_hdr5,
    getD_hdr6, getD_hdr7, drop_eight_hdr]
  rw [if_neg (by omega)]
  rw [if_neg (by norm_num [VRRP_VERSION])]
  rw [if_neg (by norm_num [VRRP_TYPE_ADVERTISEMENT])]
  rcases hfam with hfam | hfam
  · have hflen := v4_flat_length ips hfam
    rw [if_pos (by omega)]
    rw [parseV4Addrs_flatten ips hfam]
    simp only [Except.map, Except.ok.injEq, VRRPPacket.mk.injEq]
    refine ⟨trivial, trivial, trivial, trivial, by omega, by omega, trivial⟩
  · have hflen := v6_flat_length ips hfam
    by_cases hnil : ips.length = 0
    · have hnil' : ips = [] := List.length_eq_zero.mp hnil
      subst hnil'
      simp only [List.length_nil] at hflen ⊢
      rw [if_pos (by omega)]
      simp only [List.map_nil, List.flatten_nil, parseV4Addrs]
      simp only [Except.map, Except.ok.injEq, VRRPPacket.mk.injEq]
      refine ⟨trivial, trivial, trivial, trivial, by omega, by omega, trivial⟩
    · rw [if_neg (by omega)]
      rw [if_pos (by omega)]
      rw [parseV6Addrs_flatten ips hfam]
      simp only [Except.map, Except.ok.injEq, VRRPPacket.mk.injEq]
      refine ⟨trivial, trivial, trivial, trivial, by omega, by omega, trivial⟩

/-- C6 witness: a concrete packet with two IPv4 virtual IPs round-trips. -/
theorem vrrp_packet_roundtrip_witness :
    packetExample.wellFormed ∧ VRRPPacket.parse packetExample.to_bytes = .ok packetExample :=
  ⟨by decide, vrrp_packet_roundtrip packetExample (by decide)⟩

/-! ## C3: IPVS service attribute codec -/

theorem readLe16_le16 (v : Nat) : readLe16 (le16 v) = v % 256 + v / 256 % 256 * 256 := rfl

theorem readBe16_be16 (v : Nat) : readBe16 (be16 v) = v / 256 % 256 * 256 + v % 256 := rfl

theorem readBe32_be32 (v : Nat) :
    readBe32 (be32 v) =
      v / 16777216 % 256 * 16777216 + v / 65536 % 256 * 65536 + v / 256 % 256 * 256 + v % 256 :=
  rfl

theorem utf8SeqRemainder_ascii (b : Nat) (t : List Nat) (hb : b < 128) :
    utf8SeqRemainder (b :: t) = some t := by
  simp only [utf8SeqRemainder]
  rw [if_pos hb]

theorem utf8ValidAux_ascii (fuel : Nat) :
    ∀ l : List Nat, l.length ≤ fuel → (∀ b ∈ l, b < 128) → utf8ValidAux fuel l = true := by
  induction fuel with
  | zero =>
      intro l hl _
      cases l with
      | nil => rfl
      | cons b t => simp at hl
  | succ n ih =>
      intro l hl h
      cases l with
      | nil => rfl
      | cons b t =>
          have hb := h b (List.mem_cons_self b t)
          have hl2 : t.length ≤ n := by
            simp only [List.length_cons] at hl
            omega
          simp only [utf8ValidAux, utf8SeqRemainder_ascii b t hb]
          exact ih t hl2 (fun x hx => h x (List.mem_cons_of_mem b hx))

theorem utf8Valid_ascii (l : List Nat) (h : ∀ b ∈ l, b < 128) : utf8Valid l = true :=
  utf8ValidAux_ascii l.length l le_rfl h

theorem dropWhile_zero_of_no_zero (l : List Nat) (h : ∀ b ∈ l, b ≠ 0) :
    l.dropWhile (· = 0) = l := by
  cases l with
  | nil => rfl
  | cons a t =>
      have ha := h a (List.mem_cons_self a t)
      simp [List.dropWhile_cons, ha]

theorem trimEndZeros_append_zero (l : List Nat) :
    trimEndZeros (l ++ [0]) = trimEndZeros l := by
  unfold trimEndZeros
  rw [List.reverse_append]
  simp only [List.reverse_cons, List.reverse_nil, List.nil_append, List.singleton_append]
  rw [List.dropWhile_cons]
  simp

theorem trimEndZeros_no_zero (l : List Nat) (h : ∀ b ∈ l, b ≠ 0) : trimEndZeros l = l := by
  unfold trimEndZeros
  rw [dropWhile_zero_of_no_zero _ (fun b hb => h b (List.mem_reverse.mp hb)),
    List.reverse_reverse]

theorem parse_emit_family (v : Nat) (h : v < 65536) :
    ServiceNla.parse 1 (le16 v) = .ok (.AddressFamily v) := by
  have hr : readLe16 (le16 v) = v := by
    have h2 := readLe16_le16 v
    omega
  unfold ServiceNla.parse
  rw [if_pos rfl, if_pos (show (le16 v).length = 2 from rfl), hr]

theorem parse_emit_protocol (v : Nat) (h : v < 65536) :
    ServiceNla.parse 2 (le16 v) = .ok (.Protocol v) := by
  have hr : readLe16 (le16 v) = v := by
    have h2 := readLe16_le16 v
    omega
  unfold ServiceNla.parse
  rw [if_neg (by norm_num), if_pos rfl, if_pos (show (le16 v).length = 2 from rfl), hr]

theorem parse_emit_address (v : Nat) (h : v < 4294967296) :
    ServiceNla.parse 3 (be32 v) = .ok (.Address v) := by
  have hr : readBe32 (be32 v) = v := by
    have h2 := readBe32_be32 v
    omega
  unfold ServiceNla.parse
  rw [if_neg (by norm_num), if_neg (by norm_num), if_pos rfl,
    if_pos (show (be32 v).length = 4 from rfl), hr]

theorem parse_emit_port (v : Nat) (h : v < 65536) :
    ServiceNla.parse 4 (be16 v) = .ok (.Port v) := by
  have hr : readBe16 (be16 v) = v := by
    have h2 := readBe16_be16 v
    omega
  unfold ServiceNla.parse
  rw [if_neg (by norm_num), if_neg (by norm_num), if_neg (by norm_num), if_pos rfl,
    if_pos (show (be16 v).length = 2 from rfl), hr]

theorem parse_emit_scheduler (s : List Nat) (h : ∀ b ∈ s, 0 < b ∧ b < 128) :
    ServiceNla.parse 6 (s ++ [0]) = .ok (.Scheduler s) := by
  have hval : utf8Valid (s ++ [0]) = true := by
    apply utf8Valid_ascii
    intro b hb
    rcases List.mem_append.mp hb with hb | hb
    · exact (h b hb).2
    · simp only [List.mem_singleton] at hb
      omega
  have htrim : trimEndZeros (s ++ [0]) = s := by
    rw [trimEndZeros_append_zero]
    exact trimEndZeros_no_zero s (fun b hb => Nat.pos_iff_ne_zero.mp (h b hb).1)
  unfold ServiceNla.parse
  rw [if_neg (by norm_num), if_neg (by norm_num), if_neg (by norm_num),
    if_neg (by norm_num), if_pos rfl, if_pos hval, htrim]

theorem parse_kind_5 (payload : List Nat) :
    ServiceNla.parse 5 payload = .ok (.Other 5 payload) := by
  unfold ServiceNla.parse
  norm_num

theorem parse_kind_7 (payload : List Nat) :
    ServiceNla.parse 7 payload = .ok (.Other 7 payload) := by
  unfold ServiceNla.parse
  norm_num

theorem parse_kind_8 (payload : List Nat) :
    ServiceNla.parse 8 payload = .ok (.Other 8 payload) := by
  unfold ServiceNla.parse
  norm_num

theorem parse_emit_list (l : List ServiceNla)
    (h : ∀ a ∈ l, ServiceNla.parse a.kindOf a.emit_value = .ok a.degrade) :
    parse_service_nlas (emit_service_nlas l) = .ok (l.map ServiceNla.degrade) := by
  induction l with
  | nil => rfl
  | cons a t ih =>
      have ha := h a (List.mem_cons_self a t)
      have ht : ∀ x ∈ t, ServiceNla.parse x.kindOf x.emit_value = .ok x.degrade :=
        fun x hx => h x (List.mem_cons_of_mem a hx)
      simp only [emit_service_nlas, List.map_cons] at ih ⊢
      simp only [parse_service_nlas, ha, ih ht]
      rfl

theorem u16_swap_bytes (p : Nat) :
    u16_to_be p / 256 % 256 = p % 256 ∧ u16_to_be p % 256 = p / 256 % 256 := by
  unfold u16_to_be
  have g1 : (p % 256 * 256 + p / 256 % 256) / 256 = p % 256 := by omega
  have g2 : p % 256 % 256 = p % 256 := by omega
  have g3 : (p % 256 * 256 + p / 256 % 256) % 256 = p / 256 % 256 := by omega
  exact ⟨by rw [g1, g2], g3⟩

theorem u32_swap_bytes (a b c d : Nat) (ha : a < 256) (hb : b < 256) (hc : c < 256)
    (hd : d < 256) :
    be32 (u32_to_be (u32_from_v4 a b c d)) = [d, c, b, a] := by
  unfold be32 u32_to_be u32_from_v4
  have e1 : (a * 16777216 + b * 65536 + c * 256 + d) % 256 = d := by omega
  have e2a : (a * 16777216 + b * 65536 + c * 256 + d) / 256 = a * 65536 + b * 256 + c := by
    omega
  have e2 : (a * 16777216 + b * 65536 + c * 256 + d) / 256 % 256 = c := by
    rw [e2a]; omega
  have e3a : (a * 16777216 + b * 65536 + c * 256 + d) / 65536 = a * 256 + b := by omega
  have e3 : (a * 16777216 + b * 65536 + c * 256 + d) / 65536 % 256 = b := by
    rw [e3a]; omega
  have e4a : (a * 16777216 + b * 65536 + c * 256 + d) / 16777216 = a := by omega
  have e4 : (a * 16777216 + b * 65536 + c * 256 + d) / 16777216 % 256 = a := by
    rw [e4a]; omega
  rw [e1, e2, e3, e4]
  have f1a : (d * 16777216 + c * 65536 + b * 256 + a) / 16777216 = d := by omega
  have f1 : (d * 16777216 + c * 65536 + b * 256 + a) / 16777216 % 256 = d := by
    rw [f1a]; omega
  have f2a : (d * 16777216 + c * 65536 + b * 256 + a) / 65536 = d * 256 + c := by omega
  have f2 : (d * 16777216 + c * 65536 + b * 256 + a) / 65536 % 256 = c := by
    rw [f2a]; omega
  have f3a : (d * 16777216 + c * 65536 + b * 256 + a) / 256 = d * 65536 + c * 256 + b := by
    omega
  have f3 : (d * 16777216 + c * 65536 + b * 256 + a) / 256 % 256 = b := by
    rw [f3a]; omega
  have f4 : (d * 16777216 + c * 65536 + b * 256 + a) % 256 = a := by omega
  rw [f1, f2, f3, f4]

theorem u32_to_be_lt (v : Nat) : u32_to_be v < 4294967296 := by
  unfold u32_to_be
  omega

theorem u16_to_be_lt (v : Nat) : u16_to_be v < 65536 := by
  unfold u16_to_be
  omega

theorem protocol_number_lt (p : Protocol) (h : p.numByteOk = true) : p.number < 65536 := by
  cases p with
  | TCP => norm_num [Protocol.number]
  | UDP => norm_num [Protocol.number]
  | SCTP => norm_num [Protocol.number]
  | Other n =>
      simp only [Protocol.numByteOk, decide_eq_true_eq] at h
      simp only [Protocol.number]
      omega

/-- C3 amended: for every well-formed Service, parsing the emitted attribute
list returns the `AddressFamily`, `Protocol`, `Address`, `Port` and
`Scheduler` attributes unchanged, but every `FirewallMark`, `Flags` and
`Timeout` attribute comes back as `Other(kind, wire bytes)` — the full
round-trip identity fails.  Moreover, because `to_service_nlas` pre-swaps
with `to_be()` and `emit_value` swaps again with `to_be_bytes()`, the wire
payloads of the service's port and IPv4 address are little-endian (the
reversal of the big-endian form the spec requires). -/
theorem service_nlas_parse_emit (s : Service) (h : s.wellFormed) :
    parse_service_nlas (emit_service_nlas s.to_service_nlas) =
      .ok (s.to_service_nlas.map ServiceNla.degrade) ∧
    (ServiceNla.Port (u16_to_be s.port)).emit_value =
      [s.port % 256, s.port / 256 % 256] ∧
    (∀ a b c d : Nat, s.address = .v4 a b c d →
      (ServiceNla.Address (u32_to_be (u32_from_v4 a b c d))).emit_value = [d, c, b, a]) := by
  obtain ⟨h1, h2, h3, h4⟩ := h
  refine ⟨?_, ?_, ?_⟩
  · apply parse_emit_list
    intro a ha
    by_cases hfw : s.fwmark = 0 <;> by_cases hto : 0 < s.timeout <;>
      simp only [Service.to_service_nlas, hfw, hto, if_pos, if_neg, if_true, if_false,
        reduceIte, List.cons_append, List.nil_append, List.mem_cons,
        List.not_mem_nil, or_false, List.mem_singleton] at ha <;>
      rcases ha with rfl | rfl | rfl | rfl | rfl | rfl | rfl <;>
      first
        | exact parse_emit_family 2 (by omega)
        | exact parse_emit_protocol _ (protocol_number_lt _ h3)
        | (rcases hv4 : s.address with ⟨a1, b1, c1, d1⟩ | o <;>
            simp only [hv4] <;> exact parse_emit_address _ (by first | exact u32_to_be_lt _ | omega))
        | exact parse_emit_port _ (u16_to_be_lt _)
        | exact parse_emit_scheduler _ h4
        | exact parse_kind_5 _
        | exact parse_kind_7 _
        | exact parse_kind_8 _
  · have hs := u16_swap_bytes s.port
    simp only [ServiceNla.emit_value, be16, hs.1, hs.2]
  · intro a b c d hv4
    rw [hv4] at h1
    simp only [IpAddr.v4OctetsOk, Bool.and_eq_true, decide_eq_true_eq] at h1
    obtain ⟨⟨⟨ha, hb⟩, hc⟩, hd⟩ := h1
    simp only [ServiceNla.emit_value]
    exact u32_swap_bytes a b c d ha hb hc hd

/-- C3 counterexample: for the plain TCP/rr service on 10.0.0.1:80, parsing
the emitted attributes does not return them unchanged (the always-present
`Flags` attribute comes back as `Other(7, bytes)`), so
`parse_nlas(emit_nlas(s)) == s` fails. -/
theorem service_nlas_roundtrip_fails :
    parse_service_nlas (emit_service_nlas svcExample.to_service_nlas) ≠
      .ok svcExample.to_service_nlas := by
  intro h
  have h1 : parse_service_nlas (emit_service_nlas svcExample.to_service_nlas) =
      .ok (svcExample.to_service_nlas.map ServiceNla.degrade) := rfl
  have h2 : svcExample.to_service_nlas.map ServiceNla.degrade = svcExample.to_service_nlas :=
    Except.ok.inj (h1.symm.trans h)
  exact absurd h2 (by decide)

/-- C3 witness: the amended statement evaluated on the concrete service —
including the little-endian port bytes `[80, 0]` and address bytes
`[1, 0, 0, 10]` on the wire. -/
theorem service_nlas_parse_emit_witness :
    parse_service_nlas (emit_service_nlas svcExample.to_service_nlas) =
      .ok (svcExample.to_service_nlas.map ServiceNla.degrade) ∧
    (ServiceNla.Port (u16_to_be svcExample.port)).emit_value =
      [svcExample.port % 256, svcExample.port / 256 % 256] ∧
    (ServiceNla.Address (u32_to_be (u32_from_v4 10 0 0 1))).emit_value = [1, 0, 0, 10] :=
  ⟨(service_nlas_parse_emit svcExample (by decide)).1,
   (service_nlas_parse_emit svcExample (by decide)).2.1,
   (service_nlas_parse_emit svcExample (by decide)).2.2 10 0 0 1 rfl⟩

end Seesaw
